import Mathlib

/-!
Shallow embedding of `rescript/get_unite.py` (RESCRIPt's UNITE database
fetcher) and proofs about it.

The Python module has five functions:
  `_unite_get_doi`, `_unite_get_url`, `_unite_get_tgz`,
  `_unite_get_artifacts`, `get_unite_data`.
Network responses, download-attempt outcomes and archive contents are
oracles (parameters of the embedding); everything the code itself computes
is translated function-by-function.  Python exceptions are modelled with
`Except PyError`; `print` diagnostics and filesystem events are modelled as
explicit event lists where a claim needs them.
-/

/-- The Python exceptions that `get_unite.py` can raise or catch.
`keyError` carries `str(key)` of the missing dict key; `valueError` carries
the message (the code's own `raise ValueError(...)` sites, and the
`ValueError("nothing to open")` from `tarfile.open(None, "r:gz")`);
`httpError` carries the response status code; `indexError` models
`IndexError: list index out of range`. -/
inductive PyError where
  | keyError (key : String)
  | valueError (msg : String)
  | httpError (status : Nat)
  | indexError
  deriving DecidableEq, Repr

/-! ### Python string primitives

`String.splitOn` in core Lean is defined by well-founded recursion, which
the kernel cannot unfold, so the Python string operations used by the code
(`str.split(sep)` with a one-character separator, `str.endswith`,
`substring in str`, `os.path.basename`, `os.path.join`) are re-implemented
here by structural recursion on the character list of the string. -/

/-- `Python str.split(sep)` for a single-character separator, on character
lists: splits at every occurrence of `sep`, keeping empty pieces, and
returns at least one piece.  `acc` holds the current piece reversed. -/
def pySplitCharAux (sep : Char) : List Char → List Char → List (List Char)
  | [], acc => [acc.reverse]
  | c :: cs, acc =>
    if c = sep then acc.reverse :: pySplitCharAux sep cs []
    else pySplitCharAux sep cs (c :: acc)

/-- `Python s.split(sep)` for a one-character separator `sep`. -/
def pySplit (s : String) (sep : Char) : List String :=
  (pySplitCharAux sep s.toList []).map (fun cs => String.mk cs)

/-- `bs` occurs at the start of `as` (list version of Python
`str.startswith`). -/
def listStarts : List Char → List Char → Bool
  | _, [] => true
  | [], _ :: _ => false
  | a :: as, b :: bs => a = b && listStarts as bs

/-- `pat` occurs somewhere inside `hay`: Python's `pat in hay` for
strings, on character lists. -/
def listHasSub (pat : List Char) : List Char → Bool
  | [] => pat.isEmpty
  | c :: cs => listStarts (c :: cs) pat || listHasSub pat cs

/-- Python `pat in s` (substring containment). -/
def strHasSub (s pat : String) : Bool :=
  listHasSub pat.toList s.toList

/-- Python `s.endswith(suffix)`. -/
def pyEndsWith (s suffix : String) : Bool :=
  listStarts s.toList.reverse suffix.toList.reverse

/-- Python `os.path.basename(p)`: everything after the last `/`. -/
def osPathBasename (p : String) : String :=
  (pySplit p '/').getLastD ""

/-- Python `os.path.join(a, b)` in the case the code uses (no trailing
slash on `a`, relative `b`). -/
def osPathJoin (a b : String) : String :=
  a ++ "/" ++ b

/-! ### `_unite_get_doi` -/

/-- The literal nested dict `unite_dois` from `_unite_get_doi`, as nested
association lists in source order. -/
def unite_dois : List (String × List (String × List (Bool × String))) :=
  [ ("9.0",
      [ ("fungi", [(false, "10.15156/BIO/2938079"), (true, "10.15156/BIO/2938080")]),
        ("eukaryotes", [(false, "10.15156/BIO/2938081"), (true, "10.15156/BIO/2938082")]) ]),
    ("8.3",
      [ ("fungi", [(false, "10.15156/BIO/1264708"), (true, "10.15156/BIO/1264763")]),
        ("eukaryotes", [(false, "10.15156/BIO/1264819"), (true, "10.15156/BIO/1264861")]) ]),
    ("8.2",
      [ ("fungi", [(false, "10.15156/BIO/786385"), (true, "10.15156/BIO/786387")]),
        ("eukaryotes", [(false, "10.15156/BIO/786386"), (true, "10.15156/BIO/786388")]) ]) ]

/-- Python `d[k]`: association-list subscript raising `KeyError` with
`str(k)` (here passed explicitly as `kstr`) when the key is absent. -/
def dictGet {α β : Type} [BEq α] (d : List (α × β)) (k : α) (kstr : String) :
    Except PyError β :=
  match d.lookup k with
  | some v => Except.ok v
  | none => Except.error (PyError.keyError kstr)

/-- Python `str(b)` for a bool (used for `str(KeyError(singletons))`). -/
def pyBoolStr (b : Bool) : String :=
  if b then "True" else "False"

/-- `_unite_get_doi(version, taxon_group, singletons)`: nested dict lookup
`unite_dois[version][taxon_group][singletons]`; the first missing key
raises `KeyError` (the `except` clause prints a diagnostic and re-raises
the same exception, so the caller sees the `KeyError` itself). -/
def unite_get_doi (version taxon_group : String) (singletons : Bool) :
    Except PyError String := do
  let byGroup ← dictGet unite_dois version version
  let bySingle ← dictGet byGroup taxon_group taxon_group
  dictGet bySingle singletons (pyBoolStr singletons)

/-- Whether `(version, taxon_group, singletons)` is a key path present in
the static `unite_dois` table. -/
def doiTableHas (version taxon_group : String) (singletons : Bool) : Bool :=
  match unite_dois.lookup version with
  | none => false
  | some byGroup =>
    match byGroup.lookup taxon_group with
    | none => false
    | some bySingle => (bySingle.lookup singletons).isSome

/-! ### `_unite_get_url`

The JSON shape the code reads is `query_data["data"][0]["attributes"]["media"][-1]["url"]`.
A well-formed metadata response is modelled structurally; the network is an
oracle mapping the request URL to a response.  The function also returns
the list of requests it issued, so that "a single read request" is a
provable property. -/

/-- One entry of the `media` array: only its `url` field is read. -/
structure MediaItem where
  url : String
  deriving DecidableEq, Repr

/-- The `attributes` object: only its `media` array is read. -/
structure DoiAttributes where
  media : List MediaItem
  deriving DecidableEq, Repr

/-- One entry of the `data` array: only its `attributes` is read. -/
structure DoiRecord where
  attributes : DoiAttributes
  deriving DecidableEq, Repr

/-- The decoded JSON body of the plutof metadata response. -/
structure DoiResponse where
  data : List DoiRecord
  deriving DecidableEq, Repr

/-- The literal `base_url` of `_unite_get_url`. -/
def plutof_base_url : String :=
  "https://api.plutof.ut.ee/v1/public/dois/?format=vnd.api%2Bjson&identifier="

/-- `_unite_get_url(doi)`: one GET of `base_url + doi`, then
`data[0].attributes.media[-1].url`.  Python `[0]` on an empty list and
`[-1]` on an empty list both raise `IndexError`.  Returns the list of
requests issued together with the result. -/
def unite_get_url (net : String → DoiResponse) (doi : String) :
    List String × Except PyError String :=
  let request := plutof_base_url ++ doi
  let query_data := net request
  match query_data.data[0]? with
  | none => ([request], Except.error PyError.indexError)
  | some rec0 =>
    match rec0.attributes.media.getLast? with
    | none => ([request], Except.error PyError.indexError)
    | some item => ([request], Except.ok item.url)

/-! ### `_unite_get_tgz`

One download attempt is an oracle outcome: either the request raises
`HTTPError` with a status code, or it streams a list of chunks (modelled
by their byte counts) together with an optional `content-length` header.
Connection errors other than `HTTPError` are outside the model (the code
does not catch them). -/

/-- Outcome of one `requests.get` attempt in `_unite_get_tgz`. -/
inductive Attempt where
  | httpFail (status : Nat)
  | response (chunks : List Nat) (contentLength : Option Nat)
  deriving DecidableEq, Repr

/-- `file_size` accumulated by the chunk-writing loop: the sum of chunk
byte counts (`if chunk:` only skips writing empty chunks, which add 0). -/
def attemptBytes (chunks : List Nat) : Nat :=
  chunks.foldl (· + ·) 0

/-- Whether an attempt fails: `HTTPError` raised, or the byte count differs
from `int(response.headers.get("content-length", 0))`. -/
def attemptFails : Attempt → Bool
  | Attempt.httpFail _ => true
  | Attempt.response chunks contentLength =>
    attemptBytes chunks != contentLength.getD 0

/-- The `print` diagnostic produced when attempt number `retry` fails. -/
def attemptLog : Attempt → Nat → String
  | Attempt.httpFail status, retry =>
    "Request failed with code " ++ toString status ++ ", on try " ++ toString retry
  | Attempt.response _ _, retry =>
    "File incomplete, on try " ++ toString retry

/-- The `for retry in range(retries)` loop of `_unite_get_tgz`:
`retry` is the current attempt number, the second argument the remaining
attempts.  Returns the function's return value (`none` models Python's
implicit `None` when the loop exhausts) and the printed diagnostics. -/
def tgzLoop (attempts : Nat → Attempt) (download_path : String) :
    Nat → Nat → Option String × List String
  | _, 0 => (none, [])
  | retry, fuel + 1 =>
    match attempts retry with
    | Attempt.httpFail status =>
      let rest := tgzLoop attempts download_path (retry + 1) fuel
      (rest.1, attemptLog (Attempt.httpFail status) retry :: rest.2)
    | Attempt.response chunks contentLength =>
      let file_size := attemptBytes chunks
      if file_size = contentLength.getD 0 then
        (some (osPathJoin download_path "unitefile.tar.gz"), [])
      else
        let rest := tgzLoop attempts download_path (retry + 1) fuel
        (rest.1, attemptLog (Attempt.response chunks contentLength) retry :: rest.2)

/-- `_unite_get_tgz(url, download_path, retries=10)`.  The attempts oracle
gives the outcome of each `requests.get(url, stream=True)`. -/
def unite_get_tgz (attempts : Nat → Attempt) (url download_path : String)
    (retries : Nat := 10) : Option String × List String :=
  tgzLoop attempts download_path 0 retries

/-! ### `_unite_get_artifacts`

The archive is modelled by its member names.  Extraction flattens each
selected member to its base name inside the scratch directory, so the
single `os.walk` level sees the deduplicated base names (a second member
with the same base name overwrites the first file). -/

/-- An opaque `qiime2.Artifact.import_data` handle, remembered as the
(semantic type, file path, format) triple it was created from. -/
structure Artifact where
  semanticType : String
  path : String
  format : String
  deriving DecidableEq, Repr

/-- `qiime2.Artifact.import_data("FeatureData[Taxonomy]", fp, "HeaderlessTSVTaxonomyFormat")`. -/
def importTaxArtifact (fp : String) : Artifact :=
  ⟨"FeatureData[Taxonomy]", fp, "HeaderlessTSVTaxonomyFormat"⟩

/-- `qiime2.Artifact.import_data("FeatureData[Sequence]", fp, "MixedCaseDNAFASTAFormat")`. -/
def importSeqArtifact (fp : String) : Artifact :=
  ⟨"FeatureData[Sequence]", fp, "MixedCaseDNAFASTAFormat"⟩

/-- `f.split("_")[4]` without the raise: the 5th underscore-delimited
token of a file name, when it exists. -/
def clusterTok (f : String) : Option String :=
  (pySplit f '_')[4]?

/-- The comprehension `[f for f in files if f.split("_")[4] == cluster_id]`:
evaluates `f.split("_")[4]` on every file in order, raising `IndexError`
at the first file with fewer than 5 tokens. -/
def filterByCluster (cluster_id : String) : List String → Except PyError (List String)
  | [] => Except.ok []
  | f :: fs =>
    match clusterTok f with
    | none => Except.error PyError.indexError
    | some tok =>
      match filterByCluster cluster_id fs with
      | Except.error e => Except.error e
      | Except.ok rest =>
        Except.ok (if tok = cluster_id then f :: rest else rest)

/-- The `for file in filtered_files:` import loop: `.txt` files become
taxonomy artifacts, otherwise `.fasta` files become sequence artifacts,
anything else is skipped; each import path is `os.path.join(root, file)`. -/
def importFiltered (root : String) : List String → List Artifact × List Artifact
  | [] => ([], [])
  | file :: rest =>
    let done := importFiltered root rest
    if pyEndsWith file ".txt" then
      (importTaxArtifact (osPathJoin root file) :: done.1, done.2)
    else if pyEndsWith file ".fasta" then
      (done.1, importSeqArtifact (osPathJoin root file) :: done.2)
    else done

/-- The `os.walk` body of `_unite_get_artifacts` for the single directory
`root` containing `files`: filter by cluster token (`IndexError` possible),
fail when nothing matched, then import the filtered files in order. -/
def classifyWalk (root : String) (files : List String) (cluster_id : String) :
    Except PyError (List Artifact × List Artifact) :=
  match filterByCluster cluster_id files with
  | Except.error e => Except.error e
  | Except.ok filtered_files =>
    if filtered_files = [] then
      Except.error (PyError.valueError ("No files found with cluster_id = " ++ cluster_id))
    else
      Except.ok (importFiltered root filtered_files)

/-- `[m for m in tar.getmembers() if "_dev" in m.name]`. -/
def devMembers (memberNames : List String) : List String :=
  memberNames.filter (fun m => strHasSub m "_dev")

/-- The file names `os.walk` finds in the scratch directory: base names of
the selected members, deduplicated because extraction overwrites equal
names. -/
def workspaceFiles (memberNames : List String) : List String :=
  ((devMembers memberNames).map osPathBasename).eraseDups

/-- The exception raised by `tarfile.open(None, "r:gz")`: `TarFile.open`
begins with `if not name and not fileobj: raise ValueError("nothing to
open")`, so a `None` name fails there before any file access. -/
def tarOpenNoneError : PyError :=
  PyError.valueError "nothing to open"

/-- `_unite_get_artifacts(tgz_file, cluster_id)`.  `tgz_file` is `none`
for Python `None`, or `some memberNames` for a readable gzip tar whose
members are `memberNames`.  `tmpdirname` is the name the scratch
directory gets. -/
def unite_get_artifacts (tmpdirname : String) (tgz_file : Option (List String))
    (cluster_id : String) : Except PyError (List Artifact × List Artifact) :=
  match tgz_file with
  | none => Except.error tarOpenNoneError
  | some memberNames =>
    let members := devMembers memberNames
    if members = [] then
      Except.error (PyError.valueError "No '_dev' files found")
    else
      classifyWalk tmpdirname (workspaceFiles memberNames) cluster_id

/-! ### `get_unite_data` -/

/-- The external world of one `get_unite_data` call: the metadata API, the
download attempt outcomes, the member names of the archive the download
URL serves, and the names the two temporary directories get. -/
structure UniteEnv where
  net : String → DoiResponse
  attempts : Nat → Attempt
  members : List String
  downloadTmp : String
  extractTmp : String

/-- `get_unite_data(version, taxon_group, cluster_id="99", singletons=False)`:
DOI lookup, URL resolution, download into the download workspace (default
10 retries), then extraction/import.  Reading the archive at the returned
download path yields `env.members`; a `None` download path is passed on
unchanged. -/
def get_unite_data (env : UniteEnv) (version taxon_group : String)
    (cluster_id : String := "99") (singletons : Bool := false) :
    Except PyError (List Artifact × List Artifact) := do
  let doi ← unite_get_doi version taxon_group singletons
  let url ← (unite_get_url env.net doi).2
  let tar_file_path := (unite_get_tgz env.attempts url env.downloadTmp 10).1
  unite_get_artifacts env.extractTmp (tar_file_path.map (fun _ => env.members)) cluster_id

/-! ### Filesystem-event traces

`tempfile.TemporaryDirectory()` used as a context manager creates the
directory on entry and removes it (with its contents) on exit, on both the
normal and the exception path.  `withTempDir` encodes exactly that:
whatever the body's result is, the trace brackets the body's events with
creation and removal. -/

/-- A filesystem event: temporary-directory creation or removal. -/
inductive FsEvent where
  | mkdtemp (dir : String)
  | rmtree (dir : String)
  deriving DecidableEq, Repr

/-- `with tempfile.TemporaryDirectory() as dir:` around `body`. -/
def withTempDir {α : Type} (dir : String)
    (body : String → Except PyError α × List FsEvent) :
    Except PyError α × List FsEvent :=
  let r := body dir
  (r.1, FsEvent.mkdtemp dir :: (r.2 ++ [FsEvent.rmtree dir]))

/-- `_unite_get_artifacts` with its temporary-directory events: the whole
body runs inside the extraction workspace scope. -/
def unite_get_artifacts_fs (tmpdirname : String) (tgz_file : Option (List String))
    (cluster_id : String) :
    Except PyError (List Artifact × List Artifact) × List FsEvent :=
  withTempDir tmpdirname (fun d => (unite_get_artifacts d tgz_file cluster_id, []))

/-- `get_unite_data` with its temporary-directory events: DOI and URL are
resolved before any directory exists; the download and the extraction call
run inside the download workspace scope. -/
def get_unite_data_fs (env : UniteEnv) (version taxon_group : String)
    (cluster_id : String := "99") (singletons : Bool := false) :
    Except PyError (List Artifact × List Artifact) × List FsEvent :=
  match unite_get_doi version taxon_group singletons with
  | Except.error e => (Except.error e, [])
  | Except.ok doi =>
    match (unite_get_url env.net doi).2 with
    | Except.error e => (Except.error e, [])
    | Except.ok url =>
      withTempDir env.downloadTmp (fun d =>
        let tar_file_path := (unite_get_tgz env.attempts url d 10).1
        unite_get_artifacts_fs env.extractTmp
          (tar_file_path.map (fun _ => env.members)) cluster_id)

/-! ### Result characterizations

Explicit descriptions of the collections `_unite_get_artifacts` builds,
used to state completeness properties. -/

/-- The comprehension's test on one file: `f.split("_")[4] == cluster_id`
(given the token exists). -/
def clusterMatches (cluster_id f : String) : Bool :=
  decide (clusterTok f = some cluster_id)

/-- A file that gets imported as a taxonomy record: cluster token matches
and the name ends in `.txt`. -/
def matchTax (cluster_id f : String) : Bool :=
  clusterMatches cluster_id f && pyEndsWith f ".txt"

/-- A file that gets imported as a sequence record: cluster token matches
and the name ends in `.fasta`. -/
def matchSeq (cluster_id f : String) : Bool :=
  clusterMatches cluster_id f && pyEndsWith f ".fasta"

/-- All taxonomy artifacts for `files`, in traversal order. -/
def fullTax (root : String) (files : List String) (cluster_id : String) :
    List Artifact :=
  (files.filter (matchTax cluster_id)).map (fun f => importTaxArtifact (osPathJoin root f))

/-- All sequence artifacts for `files`, in traversal order. -/
def fullSeq (root : String) (files : List String) (cluster_id : String) :
    List Artifact :=
  (files.filter (matchSeq cluster_id)).map (fun f => importSeqArtifact (osPathJoin root f))

/-! ## Helper lemmas -/

theorem clusterMatches_iff {cluster_id f : String} :
    clusterMatches cluster_id f = true ↔ clusterTok f = some cluster_id := by
  simp [clusterMatches]

theorem filterByCluster_ok_of (cluster_id : String) (files : List String)
    (h : ∀ f ∈ files, (clusterTok f).isSome) :
    filterByCluster cluster_id files =
      Except.ok (files.filter (clusterMatches cluster_id)) := by
  induction files with
  | nil => rfl
  | cons f fs ih =>
    obtain ⟨t, ht⟩ := Option.isSome_iff_exists.mp (h f (by simp))
    have ih2 := ih (fun g hg => h g (by simp [hg]))
    by_cases hc : t = cluster_id <;>
      simp [filterByCluster, ht, ih2, List.filter_cons, clusterMatches, hc]

theorem filterByCluster_eq_ok (cluster_id : String) (files filtered : List String)
    (h : filterByCluster cluster_id files = Except.ok filtered) :
    filtered = files.filter (clusterMatches cluster_id) := by
  induction files generalizing filtered with
  | nil =>
    simp [filterByCluster] at h
    simp [h]
  | cons f fs ih =>
    cases ht : clusterTok f with
    | none => simp [filterByCluster, ht] at h
    | some t =>
      cases hr : filterByCluster cluster_id fs with
      | error e => simp [filterByCluster, ht, hr] at h
      | ok rest =>
        have hrest := ih rest hr
        simp [filterByCluster, ht, hr] at h
        by_cases hc : t = cluster_id <;>
          simp [hc, List.filter_cons, clusterMatches, ht, ← h, hrest]

theorem importFiltered_eq (root : String) (l : List String) :
    importFiltered root l =
      ((l.filter (fun f => pyEndsWith f ".txt")).map
        (fun f => importTaxArtifact (osPathJoin root f)),
       (l.filter (fun f => !pyEndsWith f ".txt" && pyEndsWith f ".fasta")).map
        (fun f => importSeqArtifact (osPathJoin root f))) := by
  induction l with
  | nil => rfl
  | cons f fs ih =>
    by_cases h1 : pyEndsWith f ".txt" = true
    · simp [importFiltered, ih, List.filter_cons, h1]
    · by_cases h2 : pyEndsWith f ".fasta" = true
      · simp [importFiltered, ih, List.filter_cons, h1, h2]
      · simp [importFiltered, ih, List.filter_cons, h1, h2]

theorem pyEndsWith_fasta_not_txt (f : String) (h : pyEndsWith f ".fasta" = true) :
    pyEndsWith f ".txt" = false := by
  rw [pyEndsWith] at h ⊢
  have hf : (".fasta" : String).toList.reverse = ['a', 't', 's', 'a', 'f', '.'] := by decide
  have ht : (".txt" : String).toList.reverse = ['t', 'x', 't', '.'] := by decide
  rw [hf] at h
  rw [ht]
  cases hr : f.toList.reverse with
  | nil => rw [hr] at h; simp [listStarts] at h
  | cons a as =>
    rw [hr] at h
    have ha : a = 'a' := by
      by_contra hne
      simp [listStarts, hne] at h
    subst ha
    have hne : decide ('a' = 't') = false := by decide
    simp [listStarts, hne]

theorem strAppend_cancel {s t u : String} (h : s ++ t = s ++ u) : t = u := by
  apply String.ext
  have hd := congrArg String.data h
  simpa using hd

theorem osPathJoin_inj {root a b : String} (h : osPathJoin root a = osPathJoin root b) :
    a = b := by
  rw [osPathJoin, osPathJoin] at h
  exact strAppend_cancel h

theorem mem_map_importTax {root f : String} {l : List String} :
    importTaxArtifact (osPathJoin root f) ∈
      l.map (fun g => importTaxArtifact (osPathJoin root g)) ↔ f ∈ l := by
  simp only [List.mem_map]
  constructor
  · rintro ⟨g, hg, he⟩
    have hj : osPathJoin root g = osPathJoin root f := by
      simpa [importTaxArtifact, Artifact.mk.injEq] using he
    rwa [← osPathJoin_inj hj]
  · intro hf
    exact ⟨f, hf, rfl⟩

theorem mem_map_importSeq {root f : String} {l : List String} :
    importSeqArtifact (osPathJoin root f) ∈
      l.map (fun g => importSeqArtifact (osPathJoin root g)) ↔ f ∈ l := by
  simp only [List.mem_map]
  constructor
  · rintro ⟨g, hg, he⟩
    have hj : osPathJoin root g = osPathJoin root f := by
      simpa [importSeqArtifact, Artifact.mk.injEq] using he
    rwa [← osPathJoin_inj hj]
  · intro hf
    exact ⟨f, hf, rfl⟩

theorem filter_matchTax_eq (cluster_id : String) (files : List String) :
    (files.filter (clusterMatches cluster_id)).filter (fun f => pyEndsWith f ".txt") =
      files.filter (matchTax cluster_id) := by
  rw [List.filter_filter]
  apply List.filter_congr
  intro f _
  simp [matchTax, Bool.and_comm]

theorem filter_matchSeq_eq (cluster_id : String) (files : List String) :
    (files.filter (clusterMatches cluster_id)).filter
        (fun f => !pyEndsWith f ".txt" && pyEndsWith f ".fasta") =
      files.filter (matchSeq cluster_id) := by
  rw [List.filter_filter]
  apply List.filter_congr
  intro f _
  cases h2 : pyEndsWith f ".fasta" with
  | false => simp [matchSeq, h2]
  | true =>
    have h1 := pyEndsWith_fasta_not_txt f h2
    simp [matchSeq, h1, h2, Bool.and_comm]

theorem importFiltered_cluster (root cluster_id : String) (files : List String) :
    importFiltered root (files.filter (clusterMatches cluster_id)) =
      (fullTax root files cluster_id, fullSeq root files cluster_id) := by
  rw [importFiltered_eq]
  unfold fullTax fullSeq
  rw [filter_matchTax_eq, filter_matchSeq_eq]

theorem classifyWalk_eq_ok {root cluster_id : String} {files : List String}
    {out : List Artifact × List Artifact}
    (h : classifyWalk root files cluster_id = Except.ok out) :
    out = (fullTax root files cluster_id, fullSeq root files cluster_id) := by
  unfold classifyWalk at h
  cases hf : filterByCluster cluster_id files with
  | error e => rw [hf] at h; cases h
  | ok filtered =>
    rw [hf] at h
    have h2 : (if filtered = [] then
        Except.error (PyError.valueError ("No files found with cluster_id = " ++ cluster_id))
        else Except.ok (importFiltered root filtered)) = Except.ok out := h
    by_cases hne : filtered = []
    · rw [if_pos hne] at h2; cases h2
    · rw [if_neg hne] at h2
      have hv : importFiltered root filtered = out := by
        injection h2
      rw [filterByCluster_eq_ok cluster_id files filtered hf,
        importFiltered_cluster] at hv
      exact hv.symm

theorem classifyWalk_ok_of (root cluster_id : String) (files : List String)
    (h5 : ∀ f ∈ files, (clusterTok f).isSome)
    (hm : ∃ f ∈ files, clusterTok f = some cluster_id) :
    classifyWalk root files cluster_id =
      Except.ok (fullTax root files cluster_id, fullSeq root files cluster_id) := by
  have hne : files.filter (clusterMatches cluster_id) ≠ [] := by
    obtain ⟨f, hf, htok⟩ := hm
    intro hnil
    rw [List.filter_eq_nil_iff] at hnil
    exact hnil f hf (by simp [clusterMatches, htok])
  unfold classifyWalk
  rw [filterByCluster_ok_of cluster_id files h5]
  simp [hne, importFiltered_cluster]

theorem rangeLog_shift (a : Nat → Attempt) (start n : Nat) :
    attemptLog (a start) start ::
      (List.range n).map (fun j => attemptLog (a (start + 1 + j)) (start + 1 + j)) =
      (List.range (n + 1)).map (fun j => attemptLog (a (start + j)) (start + j)) := by
  rw [List.range_succ_eq_map, List.map_cons, List.map_map]
  congr 1
  congr 1
  funext j
  have harith : start + 1 + j = start + Nat.succ j := by omega
  simp [Function.comp, harith]

theorem tgzLoop_congr (download_path : String) (fuel : Nat) :
    ∀ (start : Nat) (a b : Nat → Attempt),
      (∀ i, start ≤ i → i < start + fuel → a i = b i) →
      tgzLoop a download_path start fuel = tgzLoop b download_path start fuel := by
  induction fuel with
  | zero => intro start a b _; rfl
  | succ n ih =>
    intro start a b h
    have h0 : a start = b start := h start (Nat.le_refl _) (by omega)
    have hrest := ih (start + 1) a b (fun i h1 h2 => h i (by omega) (by omega))
    simp only [tgzLoop, h0, hrest]

theorem tgzLoop_all_fail (download_path : String) (fuel : Nat) :
    ∀ (start : Nat) (a : Nat → Attempt),
      (∀ i, start ≤ i → i < start + fuel → attemptFails (a i) = true) →
      tgzLoop a download_path start fuel =
        (none, (List.range fuel).map (fun j => attemptLog (a (start + j)) (start + j))) := by
  induction fuel with
  | zero => intro start a _; simp [tgzLoop]
  | succ n ih =>
    intro start a h
    have h0 : attemptFails (a start) = true := h start (Nat.le_refl _) (by omega)
    have hrest := ih (start + 1) a (fun i h1 h2 => h i (by omega) (by omega))
    cases ha : a start with
    | httpFail status =>
      simp only [tgzLoop, ha, hrest]
      rw [← rangeLog_shift a start n, ha]
    | response chunks contentLength =>
      rw [ha] at h0
      have hne : ¬(attemptBytes chunks = contentLength.getD 0) := by
        simpa [attemptFails] using h0
      simp only [tgzLoop, ha, if_neg hne, hrest]
      rw [← rangeLog_shift a start n, ha]

theorem get_unite_data_eq (env : UniteEnv) (version taxon_group cluster_id : String)
    (singletons : Bool) :
    get_unite_data env version taxon_group cluster_id singletons =
      match unite_get_doi version taxon_group singletons with
      | Except.error e => Except.error e
      | Except.ok doi =>
        match (unite_get_url env.net doi).2 with
        | Except.error e => Except.error e
        | Except.ok url =>
          unite_get_artifacts env.extractTmp
            (((unite_get_tgz env.attempts url env.downloadTmp 10).1).map
              (fun _ => env.members)) cluster_id := by
  cases hd : unite_get_doi version taxon_group singletons with
  | error e => simp [get_unite_data, hd, bind, Except.bind]
  | ok doi =>
    cases hu : (unite_get_url env.net doi).2 with
    | error e => simp [get_unite_data, hd, hu, bind, Except.bind]
    | ok url => simp [get_unite_data, hd, hu, bind, Except.bind]

/-! ## Claims -/

/-- C7: for every `(version, taxon_group, singletons)` triple present in the
static DOI lookup table, `_unite_get_doi` returns exactly the literal DOI
string stored in the table — all twelve entries, in particular
`("8.2", "fungi", False) ↦ "10.15156/BIO/786385"`. -/
theorem c7_doi_table_literal :
    unite_get_doi "9.0" "fungi" false = Except.ok "10.15156/BIO/2938079" ∧
    unite_get_doi "9.0" "fungi" true = Except.ok "10.15156/BIO/2938080" ∧
    unite_get_doi "9.0" "eukaryotes" false = Except.ok "10.15156/BIO/2938081" ∧
    unite_get_doi "9.0" "eukaryotes" true = Except.ok "10.15156/BIO/2938082" ∧
    unite_get_doi "8.3" "fungi" false = Except.ok "10.15156/BIO/1264708" ∧
    unite_get_doi "8.3" "fungi" true = Except.ok "10.15156/BIO/1264763" ∧
    unite_get_doi "8.3" "eukaryotes" false = Except.ok "10.15156/BIO/1264819" ∧
    unite_get_doi "8.3" "eukaryotes" true = Except.ok "10.15156/BIO/1264861" ∧
    unite_get_doi "8.2" "fungi" false = Except.ok "10.15156/BIO/786385" ∧
    unite_get_doi "8.2" "fungi" true = Except.ok "10.15156/BIO/786387" ∧
    unite_get_doi "8.2" "eukaryotes" false = Except.ok "10.15156/BIO/786386" ∧
    unite_get_doi "8.2" "eukaryotes" true = Except.ok "10.15156/BIO/786388" :=
  ⟨rfl, rfl, rfl, rfl, rfl, rfl, rfl, rfl, rfl, rfl, rfl, rfl⟩

/-- C8: for every triple absent from the static table, `_unite_get_doi`
fails with a `KeyError` carrying exactly the first unmatched key (the
version, else the taxon group, else the singletons flag) — never a default
value.  Purity of the embedding gives "no retry, no network access". -/
theorem c8_doi_missing (version taxon_group : String) (singletons : Bool)
    (h : doiTableHas version taxon_group singletons = false) :
    ∃ k, unite_get_doi version taxon_group singletons =
        Except.error (PyError.keyError k) ∧
      ((unite_dois.lookup version = none ∧ k = version) ∨
       (∃ byGroup, unite_dois.lookup version = some byGroup ∧
          byGroup.lookup taxon_group = none ∧ k = taxon_group) ∨
       (∃ byGroup bySingle, unite_dois.lookup version = some byGroup ∧
          byGroup.lookup taxon_group = some bySingle ∧
          bySingle.lookup singletons = none ∧ k = pyBoolStr singletons)) := by
  cases hv : unite_dois.lookup version with
  | none =>
    refine ⟨version, ?_, Or.inl ⟨rfl, rfl⟩⟩
    simp [unite_get_doi, dictGet, hv, bind, Except.bind]
  | some byGroup =>
    cases hg : byGroup.lookup taxon_group with
    | none =>
      refine ⟨taxon_group, ?_, Or.inr (Or.inl ⟨byGroup, rfl, hg, rfl⟩)⟩
      simp [unite_get_doi, dictGet, hv, hg, bind, Except.bind]
    | some bySingle =>
      cases hs : bySingle.lookup singletons with
      | none =>
        refine ⟨pyBoolStr singletons, ?_,
          Or.inr (Or.inr ⟨byGroup, bySingle, rfl, hg, hs, rfl⟩)⟩
        simp [unite_get_doi, dictGet, hv, hg, hs, bind, Except.bind]
      | some doi =>
        unfold doiTableHas at h
        rw [hv] at h
        simp [hg, hs] at h

/-- Witness for `c8_doi_missing`: version "9.1" is absent. -/
theorem c8_doi_missing_witness :
    ∃ k, unite_get_doi "9.1" "fungi" false = Except.error (PyError.keyError k) ∧
      ((unite_dois.lookup "9.1" = none ∧ k = "9.1") ∨
       (∃ byGroup, unite_dois.lookup "9.1" = some byGroup ∧
          byGroup.lookup "fungi" = none ∧ k = "fungi") ∨
       (∃ byGroup bySingle, unite_dois.lookup "9.1" = some byGroup ∧
          byGroup.lookup "fungi" = some bySingle ∧
          bySingle.lookup false = none ∧ k = pyBoolStr false)) :=
  c8_doi_missing "9.1" "fungi" false (by decide)

/-- C6: for every DOI and every well-formed metadata response (a first
`data` record exists and its `media` array is nonempty), `_unite_get_url`
issues exactly one read request, to `base_url ++ doi`, and returns the
`url` of the last `media` entry. -/
theorem c6_url_single_request (net : String → DoiResponse) (doi : String)
    (rec0 : DoiRecord) (item : MediaItem)
    (hdata : (net (plutof_base_url ++ doi)).data[0]? = some rec0)
    (hlast : rec0.attributes.media.getLast? = some item) :
    unite_get_url net doi = ([plutof_base_url ++ doi], Except.ok item.url) := by
  simp [unite_get_url, hdata, hlast]

/-- Witness for `c6_url_single_request`: two media entries, the newer one
(last) is returned. -/
theorem c6_url_single_request_witness :
    unite_get_url (fun _ => ⟨[⟨⟨[⟨"http://old"⟩, ⟨"http://new"⟩]⟩⟩]⟩)
        "10.15156/BIO/786385" =
      ([plutof_base_url ++ "10.15156/BIO/786385"], Except.ok "http://new") :=
  c6_url_single_request _ _ ⟨⟨[⟨"http://old"⟩, ⟨"http://new"⟩]⟩⟩ ⟨"http://new"⟩ rfl rfl

/-- C3: `_unite_get_tgz` makes at most `retries` attempts — its result
depends only on the first `retries` attempt outcomes — and when every one
of them fails it returns `None` (no exception is possible: the return type
carries no error), having logged each attempt's number, with the status
code on HTTP failures. -/
theorem c3_retry_exhaustion (attempts : Nat → Attempt) (url download_path : String)
    (retries : Nat) :
    (∀ attempts2 : Nat → Attempt, (∀ i, i < retries → attempts2 i = attempts i) →
      unite_get_tgz attempts2 url download_path retries =
        unite_get_tgz attempts url download_path retries) ∧
    ((∀ i, i < retries → attemptFails (attempts i) = true) →
      unite_get_tgz attempts url download_path retries =
        (none, (List.range retries).map (fun i => attemptLog (attempts i) i))) := by
  constructor
  · intro attempts2 hagree
    unfold unite_get_tgz
    exact tgzLoop_congr download_path retries 0 attempts2 attempts
      (fun i _ h2 => hagree i (by omega))
  · intro hfail
    unfold unite_get_tgz
    have h := tgzLoop_all_fail download_path retries 0 attempts
      (fun i _ h2 => hfail i (by omega))
    simpa using h

/-- Witness for `c3_retry_exhaustion`: two attempts, both HTTP failures. -/
theorem c3_retry_exhaustion_witness :
    unite_get_tgz (fun _ => Attempt.httpFail 404) "http://u" "/dl" 2 =
      (none, ["Request failed with code 404, on try 0",
              "Request failed with code 404, on try 1"]) := by
  have h := (c3_retry_exhaustion (fun _ => Attempt.httpFail 404) "http://u" "/dl" 2).2
    (fun i _ => rfl)
  rw [h]
  rfl

/-- C4: a download attempt (iteration `retry` of the loop of
`_unite_get_tgz`, with fuel left) succeeds if and only if the bytes
written equal the `content-length` header value (0 when absent): on
success the loop returns `download_path/unitefile.tar.gz` immediately, on
mismatch the attempt is discarded — the loop logs the failure and
continues with the next attempt, which rewrites the file from scratch
(each attempt's byte count starts at 0). -/
theorem c4_size_verification (attempts : Nat → Attempt) (download_path : String)
    (retry fuel : Nat) (chunks : List Nat) (contentLength : Option Nat)
    (ha : attempts retry = Attempt.response chunks contentLength) :
    (attemptBytes chunks = contentLength.getD 0 →
      tgzLoop attempts download_path retry (fuel + 1) =
        (some (osPathJoin download_path "unitefile.tar.gz"), [])) ∧
    (attemptBytes chunks ≠ contentLength.getD 0 →
      tgzLoop attempts download_path retry (fuel + 1) =
        ((tgzLoop attempts download_path (retry + 1) fuel).1,
          attemptLog (Attempt.response chunks contentLength) retry ::
            (tgzLoop attempts download_path (retry + 1) fuel).2)) := by
  constructor
  · intro hb
    simp only [tgzLoop, ha, if_pos hb]
  · intro hb
    simp only [tgzLoop, ha, if_neg hb]

/-- Witness for `c4_size_verification`: 5+3 bytes against a declared 8
succeeds with the fixed path; 5 bytes against 8 is discarded and, with no
fuel left, yields `None` and the diagnostic. -/
theorem c4_size_verification_witness :
    unite_get_tgz (fun _ => Attempt.response [5, 3] (some 8)) "http://u" "/dl" 1 =
      (some "/dl/unitefile.tar.gz", []) ∧
    unite_get_tgz (fun _ => Attempt.response [5] (some 8)) "http://u" "/dl" 1 =
      (none, ["File incomplete, on try 0"]) := by
  constructor
  · have h := (c4_size_verification (fun _ => Attempt.response [5, 3] (some 8))
      "/dl" 0 0 [5, 3] (some 8) rfl).1 (by decide)
    exact h
  · have h := (c4_size_verification (fun _ => Attempt.response [5] (some 8))
      "/dl" 0 0 [5] (some 8) rfl).2 (by decide)
    rw [unite_get_tgz, h]
    rfl

/-- C1 counterexample (to "every other file is silently excluded"): with
workspace files `ab_cd_ef_gh_99_dev.txt` (matching token, `.txt`) and
`x_dev.fasta` (fewer than 5 underscore tokens), the comprehension's
`f.split("_")[4]` raises `IndexError` on the second file, so the call
returns no collections at all and the matching `.txt` file is never
handed to the importer, contrary to the claim. -/
theorem c1_counterexample :
    unite_get_artifacts "/tmp/scratch1"
        (some ["ab_cd_ef_gh_99_dev.txt", "x_dev.fasta"]) "99" =
      Except.error PyError.indexError ∧
    ¬ ∃ tax seq, unite_get_artifacts "/tmp/scratch1"
        (some ["ab_cd_ef_gh_99_dev.txt", "x_dev.fasta"]) "99" =
      Except.ok (tax, seq) := by
  have h : unite_get_artifacts "/tmp/scratch1"
      (some ["ab_cd_ef_gh_99_dev.txt", "x_dev.fasta"]) "99" =
      Except.error PyError.indexError := by rfl
  refine ⟨h, ?_⟩
  rintro ⟨tax, seq, hok⟩
  rw [h] at hok
  simp at hok

/-- C1 (amended): when every workspace file has at least 5
underscore-delimited tokens and at least one file's token equals
`cluster_id`, `_unite_get_artifacts` returns, and a file is imported as a
taxonomy record iff its 5th token equals `cluster_id` and its name ends in
`.txt`, as a sequence record iff the token matches and the name ends in
`.fasta`; every other file appears in neither collection.  (A file with
fewer than 5 tokens instead aborts the call with `IndexError`, see the
counterexample.) -/
theorem c1_classification (tmpdirname cluster_id : String) (memberNames : List String)
    (hdev : devMembers memberNames ≠ [])
    (h5 : ∀ f ∈ workspaceFiles memberNames, (clusterTok f).isSome)
    (hm : ∃ f ∈ workspaceFiles memberNames, clusterTok f = some cluster_id) :
    ∃ tax seq,
      unite_get_artifacts tmpdirname (some memberNames) cluster_id =
        Except.ok (tax, seq) ∧
      tax = fullTax tmpdirname (workspaceFiles memberNames) cluster_id ∧
      seq = fullSeq tmpdirname (workspaceFiles memberNames) cluster_id ∧
      ∀ f ∈ workspaceFiles memberNames,
        (importTaxArtifact (osPathJoin tmpdirname f) ∈ tax ↔
          (clusterTok f = some cluster_id ∧ pyEndsWith f ".txt" = true)) ∧
        (importSeqArtifact (osPathJoin tmpdirname f) ∈ seq ↔
          (clusterTok f = some cluster_id ∧ pyEndsWith f ".fasta" = true)) := by
  refine ⟨fullTax tmpdirname (workspaceFiles memberNames) cluster_id,
    fullSeq tmpdirname (workspaceFiles memberNames) cluster_id, ?_, rfl, rfl, ?_⟩
  · simp only [unite_get_artifacts, if_neg hdev]
    exact classifyWalk_ok_of tmpdirname cluster_id (workspaceFiles memberNames) h5 hm
  · intro f hf
    constructor
    · unfold fullTax
      rw [mem_map_importTax, List.mem_filter]
      simp [hf, matchTax, clusterMatches]
    · unfold fullSeq
      rw [mem_map_importSeq, List.mem_filter]
      simp [hf, matchSeq, clusterMatches]

/-- Witness for `c1_classification`: four `_dev` members — a matching
`.txt` (imported as taxonomy), a matching `.fasta` (imported as sequence),
a non-matching `.fasta` and a matching `.csv` (both in neither). -/
theorem c1_classification_witness :
    ∃ tax seq,
      unite_get_artifacts "/ex" (some ["sh/sh_taxonomy_ab_cd_99_dev.txt",
        "sh_refs_ab_cd_99_dev.fasta", "sh_refs_ab_cd_97_dev.fasta",
        "sh_misc_ab_cd_99_dev.csv"]) "99" = Except.ok (tax, seq) ∧
      tax = fullTax "/ex" (workspaceFiles ["sh/sh_taxonomy_ab_cd_99_dev.txt",
        "sh_refs_ab_cd_99_dev.fasta", "sh_refs_ab_cd_97_dev.fasta",
        "sh_misc_ab_cd_99_dev.csv"]) "99" ∧
      seq = fullSeq "/ex" (workspaceFiles ["sh/sh_taxonomy_ab_cd_99_dev.txt",
        "sh_refs_ab_cd_99_dev.fasta", "sh_refs_ab_cd_97_dev.fasta",
        "sh_misc_ab_cd_99_dev.csv"]) "99" ∧
      ∀ f ∈ workspaceFiles ["sh/sh_taxonomy_ab_cd_99_dev.txt",
        "sh_refs_ab_cd_99_dev.fasta", "sh_refs_ab_cd_97_dev.fasta",
        "sh_misc_ab_cd_99_dev.csv"],
        (importTaxArtifact (osPathJoin "/ex" f) ∈ tax ↔
          (clusterTok f = some "99" ∧ pyEndsWith f ".txt" = true)) ∧
        (importSeqArtifact (osPathJoin "/ex" f) ∈ seq ↔
          (clusterTok f = some "99" ∧ pyEndsWith f ".fasta" = true)) :=
  c1_classification "/ex" "99" ["sh/sh_taxonomy_ab_cd_99_dev.txt",
    "sh_refs_ab_cd_99_dev.fasta", "sh_refs_ab_cd_97_dev.fasta",
    "sh_misc_ab_cd_99_dev.csv"] (by decide) (by decide) (by decide)

/-- C5 counterexample (to "fails with a descriptive error naming the
cluster_id when no extracted file's 5th token equals it"): with the single
workspace file `x_dev.fasta` no file's 5th token equals "99", yet the call
raises `IndexError` — no `ValueError` naming the cluster id at all. -/
theorem c5_counterexample :
    unite_get_artifacts "/tmp/scratch2" (some ["x_dev.fasta"]) "99" =
      Except.error PyError.indexError ∧
    ¬ ∃ msg, unite_get_artifacts "/tmp/scratch2" (some ["x_dev.fasta"]) "99" =
      Except.error (PyError.valueError msg) := by
  have h : unite_get_artifacts "/tmp/scratch2" (some ["x_dev.fasta"]) "99" =
      Except.error PyError.indexError := by rfl
  refine ⟨h, ?_⟩
  rintro ⟨msg, hmsg⟩
  rw [h] at hmsg
  simp at hmsg

/-- C5 (amended): `_unite_get_artifacts` fails immediately (before
any import) with `ValueError "No '_dev' files found"` when no archive member
contains `"_dev"`; and when `_dev` members exist, every workspace file has
at least 5 underscore tokens, and none's 5th token equals `cluster_id`, it
fails immediately with a `ValueError` naming the cluster id. -/
theorem c5_content_errors (tmpdirname cluster_id : String) (memberNames : List String) :
    (devMembers memberNames = [] →
      unite_get_artifacts tmpdirname (some memberNames) cluster_id =
        Except.error (PyError.valueError "No '_dev' files found")) ∧
    (devMembers memberNames ≠ [] →
      (∀ f ∈ workspaceFiles memberNames, (clusterTok f).isSome) →
      (∀ f ∈ workspaceFiles memberNames, clusterTok f ≠ some cluster_id) →
      unite_get_artifacts tmpdirname (some memberNames) cluster_id =
        Except.error (PyError.valueError
          ("No files found with cluster_id = " ++ cluster_id))) := by
  constructor
  · intro hdev
    simp [unite_get_artifacts, hdev]
  · intro hdev h5 hnone
    have hfil : (workspaceFiles memberNames).filter (clusterMatches cluster_id) = [] :=
      List.filter_eq_nil_iff.mpr (fun f hf => by simp [clusterMatches, hnone f hf])
    simp only [unite_get_artifacts, if_neg hdev]
    unfold classifyWalk
    rw [filterByCluster_ok_of cluster_id (workspaceFiles memberNames) h5, hfil]
    rfl

/-- Witness for `c5_content_errors`: an archive with no `_dev` member, and
one whose only `_dev` member has cluster token "97" when "99" is asked. -/
theorem c5_content_errors_witness :
    unite_get_artifacts "/ex" (some ["taxa.txt"]) "99" =
      Except.error (PyError.valueError "No '_dev' files found") ∧
    unite_get_artifacts "/ex" (some ["sh_refs_ab_cd_97_dev.txt"]) "99" =
      Except.error (PyError.valueError ("No files found with cluster_id = " ++ "99")) :=
  ⟨(c5_content_errors "/ex" "99" ["taxa.txt"]).1 (by decide),
   (c5_content_errors "/ex" "99" ["sh_refs_ab_cd_97_dev.txt"]).2
     (by decide) (by decide) (by decide)⟩

/-- C2: `get_unite_data` has no partial-success outcome: every invocation
either fails with some error or returns with both collections fully
populated — the taxonomy list holding exactly the matching `.txt`
workspace files and the sequence list exactly the matching `.fasta` ones,
in traversal order. -/
theorem c2_no_partial_success (env : UniteEnv) (version taxon_group cluster_id : String)
    (singletons : Bool) :
    (∃ e, get_unite_data env version taxon_group cluster_id singletons =
      Except.error e) ∨
    get_unite_data env version taxon_group cluster_id singletons =
      Except.ok (fullTax env.extractTmp (workspaceFiles env.members) cluster_id,
        fullSeq env.extractTmp (workspaceFiles env.members) cluster_id) := by
  cases hd : unite_get_doi version taxon_group singletons with
  | error e => exact Or.inl ⟨e, by simp [get_unite_data_eq, hd]⟩
  | ok doi =>
    cases hu : (unite_get_url env.net doi).2 with
    | error e => exact Or.inl ⟨e, by simp [get_unite_data_eq, hd, hu]⟩
    | ok url =>
      cases ht : (unite_get_tgz env.attempts url env.downloadTmp 10).1 with
      | none =>
        exact Or.inl ⟨tarOpenNoneError,
          by simp [get_unite_data_eq, hd, hu, ht, unite_get_artifacts]⟩
      | some p =>
        by_cases hdev : devMembers env.members = []
        · exact Or.inl ⟨PyError.valueError "No '_dev' files found",
            by simp [get_unite_data_eq, hd, hu, ht, unite_get_artifacts, hdev]⟩
        · cases hw : classifyWalk env.extractTmp (workspaceFiles env.members) cluster_id with
          | error e2 =>
            exact Or.inl ⟨e2,
              by simp [get_unite_data_eq, hd, hu, ht, unite_get_artifacts, hdev, hw]⟩
          | ok out =>
            right
            have hout := classifyWalk_eq_ok hw
            simp [get_unite_data_eq, hd, hu, ht, unite_get_artifacts, hdev, hw, hout]

/-- C9: both temporary-directory scopes are released on every exit path:
the event trace of `get_unite_data` is either empty (failure before any
directory is created) or exactly create-download, create-extraction,
remove-extraction, remove-download — innermost scope first — and in every
case each created directory is removed exactly as often as it is
created. -/
theorem c9_tmpdir_release (env : UniteEnv) (version taxon_group cluster_id : String)
    (singletons : Bool) :
    ((get_unite_data_fs env version taxon_group cluster_id singletons).2 = [] ∨
      (get_unite_data_fs env version taxon_group cluster_id singletons).2 =
        [FsEvent.mkdtemp env.downloadTmp, FsEvent.mkdtemp env.extractTmp,
         FsEvent.rmtree env.extractTmp, FsEvent.rmtree env.downloadTmp]) ∧
    ∀ d : String,
      ((get_unite_data_fs env version taxon_group cluster_id singletons).2.count
        (FsEvent.mkdtemp d)) =
      ((get_unite_data_fs env version taxon_group cluster_id singletons).2.count
        (FsEvent.rmtree d)) := by
  have key : (get_unite_data_fs env version taxon_group cluster_id singletons).2 = [] ∨
      (get_unite_data_fs env version taxon_group cluster_id singletons).2 =
        [FsEvent.mkdtemp env.downloadTmp, FsEvent.mkdtemp env.extractTmp,
         FsEvent.rmtree env.extractTmp, FsEvent.rmtree env.downloadTmp] := by
    cases hd : unite_get_doi version taxon_group singletons with
    | error e => exact Or.inl (by simp [get_unite_data_fs, hd])
    | ok doi =>
      cases hu : (unite_get_url env.net doi).2 with
      | error e => exact Or.inl (by simp [get_unite_data_fs, hd, hu])
      | ok url =>
        exact Or.inr
          (by simp [get_unite_data_fs, hd, hu, withTempDir, unite_get_artifacts_fs])
  refine ⟨key, ?_⟩
  intro d
  rcases key with h | h <;> rw [h]
  · rfl
  · by_cases h1 : env.downloadTmp = d <;> by_cases h2 : env.extractTmp = d <;>
      simp [List.count_cons, List.count_nil, h1, h2]

/-- C10: when all 10 download attempts fail, `_unite_get_tgz` yields
`None`; `get_unite_data` passes it straight to `_unite_get_artifacts`,
which dies in `tarfile.open(None, "r:gz")` with its
`ValueError("nothing to open")` — the public entry point ends in that
exception and never returns a "nothing produced" outcome. -/
theorem c10_exhaustion_crashes (env : UniteEnv)
    (version taxon_group cluster_id doi : String) (singletons : Bool)
    (hdoi : unite_get_doi version taxon_group singletons = Except.ok doi)
    (hurl : ∃ u, (unite_get_url env.net doi).2 = Except.ok u)
    (hfail : ∀ i, i < 10 → attemptFails (env.attempts i) = true) :
    get_unite_data env version taxon_group cluster_id singletons =
      Except.error tarOpenNoneError := by
  obtain ⟨u, hu⟩ := hurl
  have hnone : (unite_get_tgz env.attempts u env.downloadTmp 10).1 = none := by
    unfold unite_get_tgz
    rw [tgzLoop_all_fail env.downloadTmp 10 0 env.attempts
      (fun i _ h2 => hfail i (by omega))]
  simp [get_unite_data_eq, hdoi, hu, hnone, unite_get_artifacts]

/-- Witness for `c10_exhaustion_crashes`: a valid DOI and URL, every
attempt an HTTP 500. -/
theorem c10_exhaustion_crashes_witness :
    get_unite_data
        ⟨fun _ => ⟨[⟨⟨[⟨"http://file"⟩]⟩⟩]⟩, fun _ => Attempt.httpFail 500, [],
          "/dl", "/ex"⟩
        "8.2" "fungi" "99" false = Except.error tarOpenNoneError :=
  c10_exhaustion_crashes _ "8.2" "fungi" "99" "10.15156/BIO/786385" false rfl
    ⟨"http://file", rfl⟩ (fun _ _ => rfl)
